import Mathlib

/-! Shallow embedding of `src/main.py` (the twiscrap_ai Streamlit utility)
and proofs of its specified properties.

The program has three parts modelled here:
  - `fetch_data_with_retry` (main.py lines 20-52): an HTTP GET through a
    proxy with bounded recursive retry on connection errors and timeouts;
  - `save_to_mongodb` (main.py lines 82-104): inserts the first five topic
    records into a Mongo collection, one document per record;
  - the "Scrape and Save" button handler (main.py lines 119-146): fetches
    topics, displays the first five in a table, then persists them.

Network, clock and database effects are made explicit: the outcome of each
GET attempt is an oracle `Nat → AttemptOutcome`, each `datetime.now()` call
is a `PyDateTime` parameter, and `insert_one` failures are an oracle
`Nat → Bool`.  Sleeps are recorded as a list of durations.
-/

/-- Outcome of one `requests.get` + `raise_for_status` attempt, as seen by
the `try/except` ladder in `fetch_data_with_retry`.  `httpError` is the
`requests.exceptions.HTTPError` raised by `raise_for_status` (a subclass of
`RequestException` but not of `ConnectionError` or `Timeout`). -/
inductive AttemptOutcome (α : Type) where
  | success (resp : α)
  | connectionError
  | timeout
  | httpError
  | otherRequestError
deriving DecidableEq, Repr

/-- Observable behaviour of one call to `fetch_data_with_retry`: the value
returned to the caller, the number of GET attempts performed, and the list
of sleep durations in the order they happened. -/
structure FetchTrace (α : Type) where
  result : Option α
  attempts : Nat
  sleeps : List Nat
deriving DecidableEq, Repr

/-- main.py lines 20-52.  `attempt k` is the outcome of the k-th GET issued
since the outer call (the oracle index is threaded through the recursion as
`idx`).  Python passes `retries-1` under a `retries > 0` guard, mirrored
here; the Python defaults are `retries=3, delay=5`. -/
def fetch_data_with_retry {α : Type} (attempt : Nat → AttemptOutcome α)
    (delay : Nat) (retries : Nat) (idx : Nat) : FetchTrace α :=
  match attempt idx with
  | .success resp => ⟨some resp, 1, []⟩
  | .connectionError =>
    if _h : retries > 0 then
      let t := fetch_data_with_retry attempt delay (retries - 1) (idx + 1)
      ⟨t.result, t.attempts + 1, delay :: t.sleeps⟩
    else
      ⟨none, 1, []⟩
  | .timeout =>
    if _h : retries > 0 then
      let t := fetch_data_with_retry attempt delay (retries - 1) (idx + 1)
      ⟨t.result, t.attempts + 1, delay :: t.sleeps⟩
    else
      ⟨none, 1, []⟩
  | .httpError => ⟨none, 1, []⟩
  | .otherRequestError => ⟨none, 1, []⟩
termination_by retries
decreasing_by all_goals omega

/-- An outcome is retryable when it lands in one of the two `except`
branches that sleep and recurse (`ConnectionError` or `Timeout`). -/
def retryable {α : Type} : AttemptOutcome α → Bool
  | .connectionError => true
  | .timeout => true
  | _ => false

/-! Unfolding lemmas for the four behaviours of one attempt. -/

theorem fetch_eq_success {α : Type} {attempt : Nat → AttemptOutcome α} {idx : Nat}
    {resp : α} (h : attempt idx = .success resp) (delay retries : Nat) :
    fetch_data_with_retry attempt delay retries idx = ⟨some resp, 1, []⟩ := by
  unfold fetch_data_with_retry
  rw [h]

theorem fetch_retry_step {α : Type} {attempt : Nat → AttemptOutcome α} {idx : Nat}
    (h : retryable (attempt idx) = true) (delay n : Nat) :
    fetch_data_with_retry attempt delay (n + 1) idx =
      ⟨(fetch_data_with_retry attempt delay n (idx + 1)).result,
       (fetch_data_with_retry attempt delay n (idx + 1)).attempts + 1,
       delay :: (fetch_data_with_retry attempt delay n (idx + 1)).sleeps⟩ := by
  conv_lhs => unfold fetch_data_with_retry
  cases hc : attempt idx <;> simp [retryable, hc] at h ⊢

theorem fetch_retry_exhausted {α : Type} {attempt : Nat → AttemptOutcome α} {idx : Nat}
    (h : retryable (attempt idx) = true) (delay : Nat) :
    fetch_data_with_retry attempt delay 0 idx = ⟨none, 1, []⟩ := by
  unfold fetch_data_with_retry
  cases hc : attempt idx <;> simp [retryable, hc] at h ⊢

theorem fetch_nonretryable {α : Type} {attempt : Nat → AttemptOutcome α} {idx : Nat}
    (h : attempt idx = .httpError ∨ attempt idx = .otherRequestError)
    (delay retries : Nat) :
    fetch_data_with_retry attempt delay retries idx = ⟨none, 1, []⟩ := by
  unfold fetch_data_with_retry
  rcases h with h | h <;> rw [h]

/-- Every call performs at most `retries + 1` attempts and at most `retries`
sleeps (helper for the termination claim). -/
theorem fetch_attempts_bound {α : Type} (attempt : Nat → AttemptOutcome α)
    (delay : Nat) : ∀ m j, (fetch_data_with_retry attempt delay m j).attempts ≤ m + 1 ∧
      (fetch_data_with_retry attempt delay m j).sleeps.length ≤ m := by
  intro m
  induction m with
  | zero =>
    intro j
    cases hc : attempt j
    · rw [fetch_eq_success hc]; exact ⟨le_refl _, Nat.le_refl _⟩
    · rw [fetch_retry_exhausted (by simp [retryable, hc])]; simp
    · rw [fetch_retry_exhausted (by simp [retryable, hc])]; simp
    · rw [fetch_nonretryable (Or.inl hc)]; simp
    · rw [fetch_nonretryable (Or.inr hc)]; simp
  | succ m ih =>
    intro j
    cases hc : attempt j
    · rw [fetch_eq_success hc]; constructor <;> simp
    · rw [fetch_retry_step (by simp [retryable, hc])]
      exact ⟨by simpa using Nat.succ_le_succ (ih (j + 1)).1,
             by simpa using Nat.succ_le_succ (ih (j + 1)).2⟩
    · rw [fetch_retry_step (by simp [retryable, hc])]
      exact ⟨by simpa using Nat.succ_le_succ (ih (j + 1)).1,
             by simpa using Nat.succ_le_succ (ih (j + 1)).2⟩
    · rw [fetch_nonretryable (Or.inl hc)]; constructor <;> simp
    · rw [fetch_nonretryable (Or.inr hc)]; constructor <;> simp

/-- Claim C1: with retry budget `n`, if every attempt fails with a retryable
error (connection error or timeout), `fetch_data_with_retry` performs exactly
`n + 1` GET attempts, sleeps exactly `n` times for `delay` seconds each
(total waiting `n * delay`), and returns `none`. -/
theorem fetch_all_retryable_exhausts_budget {α : Type}
    (attempt : Nat → AttemptOutcome α) (delay n idx : Nat)
    (h : ∀ k, k ≤ n → retryable (attempt (idx + k)) = true) :
    fetch_data_with_retry attempt delay n idx =
      ⟨none, n + 1, List.replicate n delay⟩ ∧
    (fetch_data_with_retry attempt delay n idx).sleeps.sum = n * delay := by
  induction n generalizing idx with
  | zero =>
    rw [fetch_retry_exhausted (by simpa using h 0 (Nat.le_refl 0)) delay]
    simp
  | succ n ih =>
    have h0 : retryable (attempt idx) = true := by simpa using h 0 (Nat.zero_le _)
    have hrest : ∀ k, k ≤ n → retryable (attempt (idx + 1 + k)) = true := by
      intro k hk
      have := h (k + 1) (by omega)
      rwa [show idx + (k + 1) = idx + 1 + k by omega] at this
    rw [fetch_retry_step h0 delay n, (ih (idx + 1) hrest).1]
    simp [List.replicate_succ, Nat.succ_mul, Nat.add_comm]

/-- Witness for C1: three retries, every attempt times out. -/
theorem fetch_all_retryable_exhausts_budget_witness :
    fetch_data_with_retry (fun _ => (.timeout : AttemptOutcome Nat)) 5 3 0 =
      ⟨none, 4, List.replicate 3 5⟩ ∧
    (fetch_data_with_retry (fun _ => (.timeout : AttemptOutcome Nat)) 5 3 0).sleeps.sum =
      3 * 5 :=
  fetch_all_retryable_exhausts_budget (fun _ => .timeout) 5 3 0 (fun _ _ => rfl)

/-- Claim C2: no exception propagates to the caller: for every pattern of
attempt outcomes, the call returns either the payload of some successful
attempt within the budget or the sentinel `none`. -/
theorem fetch_never_raises {α : Type} (attempt : Nat → AttemptOutcome α)
    (delay n idx : Nat) :
    (∃ p j, j ≤ n ∧ attempt (idx + j) = .success p ∧
        (fetch_data_with_retry attempt delay n idx).result = some p) ∨
    (fetch_data_with_retry attempt delay n idx).result = none := by
  induction n generalizing idx with
  | zero =>
    cases hc : attempt idx
    case success resp =>
      exact Or.inl ⟨resp, 0, Nat.le_refl 0, by simpa using hc,
        by rw [fetch_eq_success hc]⟩
    case connectionError =>
      exact Or.inr (by rw [fetch_retry_exhausted (by simp [retryable, hc])])
    case timeout =>
      exact Or.inr (by rw [fetch_retry_exhausted (by simp [retryable, hc])])
    case httpError => exact Or.inr (by rw [fetch_nonretryable (Or.inl hc)])
    case otherRequestError => exact Or.inr (by rw [fetch_nonretryable (Or.inr hc)])
  | succ n ih =>
    cases hc : attempt idx
    case success resp =>
      exact Or.inl ⟨resp, 0, Nat.zero_le _, by simpa using hc,
        by rw [fetch_eq_success hc]⟩
    case connectionError =>
      rw [fetch_retry_step (by simp [retryable, hc]) delay n]
      rcases ih (idx + 1) with ⟨p, j, hj, hs, hr⟩ | hr
      · exact Or.inl ⟨p, j + 1, by omega,
          by rwa [show idx + (j + 1) = idx + 1 + j by omega], hr⟩
      · exact Or.inr hr
    case timeout =>
      rw [fetch_retry_step (by simp [retryable, hc]) delay n]
      rcases ih (idx + 1) with ⟨p, j, hj, hs, hr⟩ | hr
      · exact Or.inl ⟨p, j + 1, by omega,
          by rwa [show idx + (j + 1) = idx + 1 + j by omega], hr⟩
      · exact Or.inr hr
    case httpError => exact Or.inr (by rw [fetch_nonretryable (Or.inl hc)])
    case otherRequestError => exact Or.inr (by rw [fetch_nonretryable (Or.inr hc)])

/-- Claim C4: an HTTP error status (`raise_for_status`) falls into the
`RequestException` branch: the call returns `none` at once, with one
attempt, no sleep and no retry, whatever the remaining budget. -/
theorem fetch_http_error_terminal {α : Type} (attempt : Nat → AttemptOutcome α)
    (delay retries idx : Nat) (h : attempt idx = .httpError) :
    fetch_data_with_retry attempt delay retries idx = ⟨none, 1, []⟩ :=
  fetch_nonretryable (Or.inl h) delay retries

/-- Witness for C4: a first attempt raising an HTTP error with budget 3. -/
theorem fetch_http_error_terminal_witness :
    fetch_data_with_retry (fun _ => (.httpError : AttemptOutcome Nat)) 5 3 0 =
      ⟨none, 1, []⟩ :=
  fetch_http_error_terminal (fun _ => .httpError) 5 3 0 rfl

/-- Claim C5: a first attempt failing with a non-retryable request error
yields exactly one attempt, no sleep, and the sentinel `none`, for every
retry budget. -/
theorem fetch_other_error_single_attempt {α : Type}
    (attempt : Nat → AttemptOutcome α) (delay retries idx : Nat)
    (h : attempt idx = .otherRequestError) :
    fetch_data_with_retry attempt delay retries idx = ⟨none, 1, []⟩ :=
  fetch_nonretryable (Or.inr h) delay retries

/-- Witness for C5: a first attempt raising a generic request error with
budget 7. -/
theorem fetch_other_error_single_attempt_witness :
    fetch_data_with_retry (fun _ => (.otherRequestError : AttemptOutcome Nat)) 2 7 0 =
      ⟨none, 1, []⟩ :=
  fetch_other_error_single_attempt (fun _ => .otherRequestError) 2 7 0 rfl

/-- Helper: if the first `j` attempts are retryable failures and attempt
`j` (0-based) succeeds with `j ≤ n`, the whole trace is `j + 1` attempts,
`j` sleeps, and the success payload. -/
theorem fetch_succeeds_after {α : Type} (attempt : Nat → AttemptOutcome α)
    (delay : Nat) : ∀ j n idx p, j ≤ n →
    (∀ i, i < j → retryable (attempt (idx + i)) = true) →
    attempt (idx + j) = .success p →
    fetch_data_with_retry attempt delay n idx =
      ⟨some p, j + 1, List.replicate j delay⟩ := by
  intro j
  induction j with
  | zero =>
    intro n idx p _ _ hsucc
    rw [fetch_eq_success (by simpa using hsucc)]
    simp
  | succ j ih =>
    intro n idx p hj hfail hsucc
    obtain ⟨n', rfl⟩ : ∃ n', n = n' + 1 := ⟨n - 1, by omega⟩
    have h0 : retryable (attempt idx) = true := by
      simpa using hfail 0 (Nat.succ_pos j)
    rw [fetch_retry_step h0 delay n']
    rw [ih n' (idx + 1) p (by omega)
      (fun i hi => by
        have := hfail (i + 1) (by omega)
        rwa [show idx + (i + 1) = idx + 1 + i by omega] at this)
      (by rwa [show idx + 1 + j = idx + (j + 1) by omega])]
    simp [List.replicate_succ]

/-- Claim C6: with budget `n`, if the first `k - 1` attempts fail with
retryable errors and attempt `k` succeeds (`1 ≤ k ≤ n + 1`), the call
performs exactly `k` GET attempts and returns the payload of attempt `k`. -/
theorem fetch_success_on_kth_attempt {α : Type} (attempt : Nat → AttemptOutcome α)
    (delay n idx k : Nat) (p : α) (hk1 : 1 ≤ k) (hk2 : k ≤ n + 1)
    (hfail : ∀ j, j < k - 1 → retryable (attempt (idx + j)) = true)
    (hsucc : attempt (idx + (k - 1)) = .success p) :
    (fetch_data_with_retry attempt delay n idx).result = some p ∧
    (fetch_data_with_retry attempt delay n idx).attempts = k := by
  have := fetch_succeeds_after attempt delay (k - 1) n idx p (by omega) hfail hsucc
  rw [this]
  exact ⟨rfl, by simp; omega⟩

/-- Witness for C6: two connection errors then success on attempt 3, with
budget 3. -/
theorem fetch_success_on_kth_attempt_witness :
    (fetch_data_with_retry
        (fun i => if i < 2 then .connectionError else (.success 42 : AttemptOutcome Nat))
        5 3 0).result = some 42 ∧
    (fetch_data_with_retry
        (fun i => if i < 2 then .connectionError else (.success 42 : AttemptOutcome Nat))
        5 3 0).attempts = 3 :=
  fetch_success_on_kth_attempt
    (fun i => if i < 2 then .connectionError else (.success 42 : AttemptOutcome Nat))
    5 3 0 3 42 (by omega) (by omega) (by decide) (by decide)

/-- Claim C7: the retry budget strictly decreases by one on each retry, a
retry happens only from a strictly positive budget (budget 0 is terminal),
and consequently the recursion is bounded: at most `m + 1` attempts for any
budget `m`. -/
theorem fetch_budget_wellfounded {α : Type} (attempt : Nat → AttemptOutcome α)
    (delay n idx : Nat) (h : retryable (attempt idx) = true) :
    fetch_data_with_retry attempt delay (n + 1) idx =
      ⟨(fetch_data_with_retry attempt delay n (idx + 1)).result,
       (fetch_data_with_retry attempt delay n (idx + 1)).attempts + 1,
       delay :: (fetch_data_with_retry attempt delay n (idx + 1)).sleeps⟩ ∧
    fetch_data_with_retry attempt delay 0 idx = ⟨none, 1, []⟩ ∧
    ∀ m j, (fetch_data_with_retry attempt delay m j).attempts ≤ m + 1 :=
  ⟨fetch_retry_step h delay n, fetch_retry_exhausted h delay,
   fun m j => (fetch_attempts_bound attempt delay m j).1⟩

/-- Witness for C7: a timing-out oracle with budget 2. -/
theorem fetch_budget_wellfounded_witness :
    fetch_data_with_retry (fun _ => (.timeout : AttemptOutcome Nat)) 5 2 0 =
      ⟨(fetch_data_with_retry (fun _ => (.timeout : AttemptOutcome Nat)) 5 1 1).result,
       (fetch_data_with_retry (fun _ => (.timeout : AttemptOutcome Nat)) 5 1 1).attempts + 1,
       5 :: (fetch_data_with_retry (fun _ => (.timeout : AttemptOutcome Nat)) 5 1 1).sleeps⟩ ∧
    fetch_data_with_retry (fun _ => (.timeout : AttemptOutcome Nat)) 5 0 0 = ⟨none, 1, []⟩ ∧
    ∀ m j, (fetch_data_with_retry (fun _ => (.timeout : AttemptOutcome Nat)) 5 m j).attempts ≤ m + 1 :=
  fetch_budget_wellfounded (fun _ => .timeout) 5 1 0 rfl

/-! Model of `datetime.now()` values and the two `strftime` formats used by
the program, at second resolution. -/

/-- A clock reading, as produced by one call to `datetime.now()`. -/
structure PyDateTime where
  year : Nat
  month : Nat
  day : Nat
  hour : Nat
  minute : Nat
  second : Nat
deriving DecidableEq, Repr

/-- Zero-padded two-digit rendering, as `strftime` does for `%m %d %H %M %S`. -/
def pad2 (n : Nat) : String :=
  if n < 10 then "0" ++ toString n else toString n

/-- Zero-padded four-digit rendering, as `strftime` does for `%Y`. -/
def pad4 (n : Nat) : String :=
  if n < 10 then "000" ++ toString n
  else if n < 100 then "00" ++ toString n
  else if n < 1000 then "0" ++ toString n
  else toString n

/-- `now.strftime("%Y%m%d%H%M%S")`, used to build `unique_id` and `ID`. -/
def strftimeCompact (t : PyDateTime) : String :=
  pad4 t.year ++ pad2 t.month ++ pad2 t.day ++
    pad2 t.hour ++ pad2 t.minute ++ pad2 t.second

/-- `now.strftime("%Y-%m-%d %H:%M:%S")`, used for the `DATE` column and the
`date_time_of_script_completion` field. -/
def strftimePretty (t : PyDateTime) : String :=
  pad4 t.year ++ "-" ++ pad2 t.month ++ "-" ++ pad2 t.day ++ " " ++
    pad2 t.hour ++ ":" ++ pad2 t.minute ++ ":" ++ pad2 t.second

/-- A topic record from the Apify dataset; only the `name` key is consumed,
via `topic.get("name", ...)`, so it is modelled as optional. -/
structure TopicRecord where
  name : Option String
deriving DecidableEq, Repr

/-- A document as inserted by `save_to_mongodb` (main.py lines 94-99). -/
structure MongoDocument where
  unique_id : String
  name_of_trend : String
  date_time_of_script_completion : String
  ip_address_used : String
deriving DecidableEq, Repr

/-- The status banner `save_to_mongodb` shows: `st.success` when the whole
`try` block completes, `st.error` when an exception is caught. -/
inductive SaveBanner where
  | successMsg
  | errorMsg
deriving DecidableEq, Repr

/-- Observable behaviour of one `save_to_mongodb` call: the documents that
reached the collection, in insertion order, and the banner shown. -/
structure SaveResult where
  written : List MongoDocument
  banner : SaveBanner
deriving DecidableEq, Repr

/-- The document built for loop index `i` (1-based, from
`enumerate(data[:5], start=1)`). -/
def mkDocument (now : PyDateTime) (proxy_ip proxy_port : String) (i : Nat)
    (topic : TopicRecord) : MongoDocument :=
  { unique_id := strftimeCompact now ++ "_" ++ toString i,
    name_of_trend := topic.name.getD ("Trend " ++ toString i),
    date_time_of_script_completion := strftimePretty now,
    ip_address_used := proxy_ip ++ ":" ++ proxy_port }

/-- The `for i, topic in enumerate(data[:5], start=1)` insertion loop.
`insertFails i` says whether `collection.insert_one` raises on loop index
`i`; a raise aborts the loop and is caught by the surrounding `except`,
which shows the error banner, leaving earlier inserts in place. -/
def insertLoop (insertFails : Nat → Bool) (now : PyDateTime)
    (proxy_ip proxy_port : String) : Nat → List TopicRecord → SaveResult
  | _, [] => ⟨[], .successMsg⟩
  | i, topic :: rest =>
    if insertFails i then ⟨[], .errorMsg⟩
    else
      let r := insertLoop insertFails now proxy_ip proxy_port (i + 1) rest
      ⟨mkDocument now proxy_ip proxy_port i topic :: r.written, r.banner⟩

/-- main.py lines 82-104.  `now` is the single `datetime.now()` reading
taken before the loop; `_ip_address` is the unused second parameter (the
caller passes "N/A"). -/
def save_to_mongodb (insertFails : Nat → Bool) (data : List TopicRecord)
    (_ip_address : String) (proxy_ip proxy_port : String) (now : PyDateTime) :
    SaveResult :=
  insertLoop insertFails now proxy_ip proxy_port 1 (data.take 5)

/-- A row of the table rendered by `st.dataframe` (main.py lines 130-136). -/
structure DisplayRow where
  id : String
  name : String
  date : String
  proxy : String
deriving DecidableEq, Repr

/-- One entry of `data_for_display`, for loop index `i` (1-based). -/
def mkDisplayRow (now : PyDateTime) (proxy_ip proxy_port : String) (i : Nat)
    (topic : TopicRecord) : DisplayRow :=
  { id := strftimeCompact now ++ "_" ++ toString i,
    name := topic.name.getD ("Trend " ++ toString i),
    date := strftimePretty now,
    proxy := proxy_ip ++ ":" ++ proxy_port }

/-- The `for i, topic in enumerate(top_5_topics, start=1)` display loop. -/
def displayLoop (now : PyDateTime) (proxy_ip proxy_port : String) :
    Nat → List TopicRecord → List DisplayRow
  | _, [] => []
  | i, topic :: rest =>
    mkDisplayRow now proxy_ip proxy_port i topic ::
      displayLoop now proxy_ip proxy_port (i + 1) rest

/-- What the "Scrape and Save" handler surfaces: either the rendered table
together with the persistence outcome, or the "No topics found." warning. -/
inductive HandlerOutcome where
  | displayed (rows : List DisplayRow) (save : SaveResult)
  | noTopicsWarning
deriving DecidableEq, Repr

/-- main.py lines 119-146.  `topics` is the batch returned by
`fetch_latest_topics`; `nowDisplay` is the `datetime.now()` taken at line
126 and `nowSave` the independent reading taken inside `save_to_mongodb`
at line 90.  An empty batch is falsy in Python, so it takes the `else`
branch and never calls `save_to_mongodb`. -/
def scrapeAndSaveHandler (insertFails : Nat → Bool) (topics : List TopicRecord)
    (nowDisplay nowSave : PyDateTime) (proxy_ip proxy_port : String) :
    HandlerOutcome :=
  match topics with
  | [] => .noTopicsWarning
  | _ :: _ =>
    let top_5_topics := topics.take 5
    .displayed (displayLoop nowDisplay proxy_ip proxy_port 1 top_5_topics)
      (save_to_mongodb insertFails top_5_topics "N/A" proxy_ip proxy_port nowSave)

/-! Characterizations of the two enumeration loops. -/

/-- With no insert failure, the insertion loop writes one document per
record, enumerated from the start index. -/
theorem insertLoop_no_failure (now : PyDateTime) (proxy_ip proxy_port : String) :
    ∀ (l : List TopicRecord) (j : Nat),
    insertLoop (fun _ => false) now proxy_ip proxy_port j l =
      ⟨(l.enumFrom j).map (fun p => mkDocument now proxy_ip proxy_port p.1 p.2),
       .successMsg⟩ := by
  intro l
  induction l with
  | nil => intro j; simp [insertLoop]
  | cons topic rest ih => intro j; simp [insertLoop, List.enumFrom, ih (j + 1)]

/-- The display loop builds one row per record, enumerated from the start
index. -/
theorem displayLoop_eq (now : PyDateTime) (proxy_ip proxy_port : String) :
    ∀ (l : List TopicRecord) (j : Nat),
    displayLoop now proxy_ip proxy_port j l =
      (l.enumFrom j).map (fun p => mkDisplayRow now proxy_ip proxy_port p.1 p.2) := by
  intro l
  induction l with
  | nil => intro j; simp [displayLoop]
  | cons topic rest ih => intro j; simp [displayLoop, List.enumFrom, ih (j + 1)]

/-- Claim C3: a batch of `m` topics yields exactly `min m 5` displayed rows
and exactly `min m 5` persisted documents (all inserts succeeding), and an
empty batch surfaces the "No topics found." warning without invoking
`save_to_mongodb`. -/
theorem handler_displays_and_persists_min_m_5 (topics : List TopicRecord)
    (nowDisplay nowSave : PyDateTime) (proxy_ip proxy_port : String)
    (hne : topics ≠ []) :
    scrapeAndSaveHandler (fun _ => false) [] nowDisplay nowSave proxy_ip proxy_port =
      .noTopicsWarning ∧
    ∃ rows save,
      scrapeAndSaveHandler (fun _ => false) topics nowDisplay nowSave proxy_ip proxy_port =
        .displayed rows save ∧
      rows.length = min topics.length 5 ∧
      save.written.length = min topics.length 5 ∧
      save.banner = .successMsg := by
  refine ⟨rfl, ?_⟩
  match topics, hne with
  | topic :: rest, _ =>
    refine ⟨_, _, rfl, ?_, ?_, ?_⟩
    · rw [displayLoop_eq]
      simp [List.length_take]
      omega
    · rw [save_to_mongodb, insertLoop_no_failure]
      simp [List.take_take, List.length_take]
      omega
    · rw [save_to_mongodb, insertLoop_no_failure]

/-- Witness for C3: a batch of seven topics displays and persists five. -/
theorem handler_displays_and_persists_min_m_5_witness :
    scrapeAndSaveHandler (fun _ => false) [] ⟨2024, 1, 2, 3, 4, 5⟩ ⟨2024, 1, 2, 3, 4, 5⟩
      "10.0.0.1" "8080" = .noTopicsWarning ∧
    ∃ rows save,
      scrapeAndSaveHandler (fun _ => false)
        [⟨some "A"⟩, ⟨some "B"⟩, ⟨some "C"⟩, ⟨some "D"⟩, ⟨some "E"⟩, ⟨some "F"⟩, ⟨some "G"⟩]
        ⟨2024, 1, 2, 3, 4, 5⟩ ⟨2024, 1, 2, 3, 4, 5⟩ "10.0.0.1" "8080" =
        .displayed rows save ∧
      rows.length = min 7 5 ∧
      save.written.length = min 7 5 ∧
      save.banner = .successMsg := by
  have := handler_displays_and_persists_min_m_5
    [⟨some "A"⟩, ⟨some "B"⟩, ⟨some "C"⟩, ⟨some "D"⟩, ⟨some "E"⟩, ⟨some "F"⟩, ⟨some "G"⟩]
    ⟨2024, 1, 2, 3, 4, 5⟩ ⟨2024, 1, 2, 3, 4, 5⟩ "10.0.0.1" "8080" (by simp)
  simpa using this

/-- Claim C8: one `save_to_mongodb` call on a batch of `m` records (all
inserts succeeding) writes `min m 5` documents whose `unique_id` at
position `i` is `<timestamp>_<i+1>` — ordinals `1 .. min m 5` in strictly
increasing order, all sharing the single per-batch timestamp — and whose
`name_of_trend` is the name of the record with the positional fallback
`"Trend <i+1>"` for a missing name. -/
theorem save_batch_ids_and_names (data : List TopicRecord)
    (proxy_ip proxy_port : String) (now : PyDateTime) (i : Nat)
    (hi : i < (save_to_mongodb (fun _ => false) data "N/A" proxy_ip proxy_port now).written.length)
    (hd : i < data.length) :
    (save_to_mongodb (fun _ => false) data "N/A" proxy_ip proxy_port now).written.length =
      min data.length 5 ∧
    ((save_to_mongodb (fun _ => false) data "N/A" proxy_ip proxy_port now).written.get
        ⟨i, hi⟩).unique_id = strftimeCompact now ++ "_" ++ toString (i + 1) ∧
    ((save_to_mongodb (fun _ => false) data "N/A" proxy_ip proxy_port now).written.get
        ⟨i, hi⟩).name_of_trend =
      (data.get ⟨i, hd⟩).name.getD ("Trend " ++ toString (i + 1)) ∧
    ((save_to_mongodb (fun _ => false) data "N/A" proxy_ip proxy_port now).written.get
        ⟨i, hi⟩).date_time_of_script_completion = strftimePretty now := by
  have hchar : (save_to_mongodb (fun _ => false) data "N/A" proxy_ip proxy_port now).written =
      ((data.take 5).enumFrom 1).map
        (fun p => mkDocument now proxy_ip proxy_port p.1 p.2) := by
    rw [save_to_mongodb, insertLoop_no_failure]
  refine ⟨?_, ?_, ?_, ?_⟩
  · rw [hchar]; simp [List.length_take]; omega
  · simp [List.get_eq_getElem, hchar, List.getElem_enumFrom, mkDocument,
      Nat.add_comm]
  · simp [List.get_eq_getElem, hchar, List.getElem_enumFrom, List.getElem_take,
      mkDocument, Nat.add_comm]
  · simp [List.get_eq_getElem, hchar, List.getElem_enumFrom, mkDocument]

/-- Witness for C8: three records, the middle one with no name. -/
theorem save_batch_ids_and_names_witness :
    (save_to_mongodb (fun _ => false) [⟨some "X"⟩, ⟨none⟩, ⟨some "Z"⟩] "N/A"
        "10.0.0.1" "8080" ⟨2024, 1, 2, 3, 4, 5⟩).written.length = min 3 5 ∧
    ((save_to_mongodb (fun _ => false) [⟨some "X"⟩, ⟨none⟩, ⟨some "Z"⟩] "N/A"
        "10.0.0.1" "8080" ⟨2024, 1, 2, 3, 4, 5⟩).written.get
        ⟨1, by decide⟩).unique_id =
      strftimeCompact ⟨2024, 1, 2, 3, 4, 5⟩ ++ "_" ++ toString (1 + 1) ∧
    ((save_to_mongodb (fun _ => false) [⟨some "X"⟩, ⟨none⟩, ⟨some "Z"⟩] "N/A"
        "10.0.0.1" "8080" ⟨2024, 1, 2, 3, 4, 5⟩).written.get
        ⟨1, by decide⟩).name_of_trend =
      (([⟨some "X"⟩, ⟨none⟩, ⟨some "Z"⟩] : List TopicRecord).get ⟨1, by decide⟩).name.getD
        ("Trend " ++ toString (1 + 1)) ∧
    ((save_to_mongodb (fun _ => false) [⟨some "X"⟩, ⟨none⟩, ⟨some "Z"⟩] "N/A"
        "10.0.0.1" "8080" ⟨2024, 1, 2, 3, 4, 5⟩).written.get
        ⟨1, by decide⟩).date_time_of_script_completion =
      strftimePretty ⟨2024, 1, 2, 3, 4, 5⟩ :=
  save_batch_ids_and_names [⟨some "X"⟩, ⟨none⟩, ⟨some "Z"⟩] "10.0.0.1" "8080"
    ⟨2024, 1, 2, 3, 4, 5⟩ 1 (by decide) (by decide)

/-- Helper: if inserts at loop indices `j .. j+k-1` succeed and the insert
at `j+k` raises, the loop stops having written exactly the first `k`
documents and the error banner is shown. -/
theorem insertLoop_first_failure (insertFails : Nat → Bool) (now : PyDateTime)
    (proxy_ip proxy_port : String) :
    ∀ (l : List TopicRecord) (j k : Nat),
    (∀ t, t < k → insertFails (j + t) = false) →
    insertFails (j + k) = true →
    k < l.length →
    insertLoop insertFails now proxy_ip proxy_port j l =
      ⟨((l.take k).enumFrom j).map (fun p => mkDocument now proxy_ip proxy_port p.1 p.2),
       .errorMsg⟩ := by
  intro l
  induction l with
  | nil => intro j k _ _ hk; simp at hk
  | cons topic rest ih =>
    intro j k hok hfail hk
    cases k with
    | zero =>
      have hj : insertFails j = true := by simpa using hfail
      simp [insertLoop, hj]
    | succ k =>
      have h0 : insertFails j = false := by simpa using hok 0 (Nat.succ_pos k)
      have hok1 : ∀ t, t < k → insertFails (j + 1 + t) = false := by
        intro t ht
        have := hok (t + 1) (by omega)
        rwa [show j + (t + 1) = j + 1 + t by omega] at this
      have hfail1 : insertFails (j + 1 + k) = true := by
        rwa [show j + 1 + k = j + (k + 1) by omega]
      rw [insertLoop, if_neg (by simp [h0]),
        ih (j + 1) k hok1 hfail1 (by simpa using hk)]
      simp [List.enumFrom]

/-- Claim C9: persistence is not atomic: if the first failing insert of a
batch is the one at 1-based ordinal `i` (with `1 ≤ i ≤ min m 5`), exactly
the documents with ordinals `1 .. i-1` remain written, no later document is
written, and the failure surfaces as the error banner rather than an
exception escaping `save_to_mongodb`. -/
theorem save_stops_at_failed_insert (insertFails : Nat → Bool)
    (data : List TopicRecord) (proxy_ip proxy_port : String) (now : PyDateTime)
    (i : Nat) (h1 : 1 ≤ i) (h2 : i ≤ min data.length 5)
    (hok : ∀ j, j < i → 1 ≤ j → insertFails j = false)
    (hfail : insertFails i = true) :
    (save_to_mongodb insertFails data "N/A" proxy_ip proxy_port now).written =
      ((data.take (i - 1)).enumFrom 1).map
        (fun p => mkDocument now proxy_ip proxy_port p.1 p.2) ∧
    (save_to_mongodb insertFails data "N/A" proxy_ip proxy_port now).written.length =
      i - 1 ∧
    (save_to_mongodb insertFails data "N/A" proxy_ip proxy_port now).banner =
      .errorMsg := by
  have hstep : insertLoop insertFails now proxy_ip proxy_port 1 (data.take 5) =
      ⟨(((data.take 5).take (i - 1)).enumFrom 1).map
         (fun p => mkDocument now proxy_ip proxy_port p.1 p.2), .errorMsg⟩ := by
    apply insertLoop_first_failure insertFails now proxy_ip proxy_port (data.take 5)
      1 (i - 1)
    · intro t ht
      exact hok (1 + t) (by omega) (by omega)
    · rwa [show 1 + (i - 1) = i by omega]
    · simp [List.length_take]; omega
  have htake : (data.take 5).take (i - 1) = data.take (i - 1) := by
    rw [List.take_take]
    congr 1
    omega
  rw [save_to_mongodb, hstep, htake]
  refine ⟨rfl, ?_, rfl⟩
  simp [List.length_take]
  omega

/-- Witness for C9: four records, the insert at ordinal 3 fails, so exactly
the first two documents stay written. -/
theorem save_stops_at_failed_insert_witness :
    (save_to_mongodb (fun n => n == 3)
        [⟨some "A"⟩, ⟨some "B"⟩, ⟨some "C"⟩, ⟨some "D"⟩] "N/A"
        "10.0.0.1" "8080" ⟨2024, 1, 2, 3, 4, 5⟩).written =
      ((([⟨some "A"⟩, ⟨some "B"⟩, ⟨some "C"⟩, ⟨some "D"⟩] :
          List TopicRecord).take (3 - 1)).enumFrom 1).map
        (fun p => mkDocument ⟨2024, 1, 2, 3, 4, 5⟩ "10.0.0.1" "8080" p.1 p.2) ∧
    (save_to_mongodb (fun n => n == 3)
        [⟨some "A"⟩, ⟨some "B"⟩, ⟨some "C"⟩, ⟨some "D"⟩] "N/A"
        "10.0.0.1" "8080" ⟨2024, 1, 2, 3, 4, 5⟩).written.length = 3 - 1 ∧
    (save_to_mongodb (fun n => n == 3)
        [⟨some "A"⟩, ⟨some "B"⟩, ⟨some "C"⟩, ⟨some "D"⟩] "N/A"
        "10.0.0.1" "8080" ⟨2024, 1, 2, 3, 4, 5⟩).banner = .errorMsg :=
  save_stops_at_failed_insert (fun n => n == 3)
    [⟨some "A"⟩, ⟨some "B"⟩, ⟨some "C"⟩, ⟨some "D"⟩] "10.0.0.1" "8080"
    ⟨2024, 1, 2, 3, 4, 5⟩ 3 (by decide) (by decide) (by decide) (by decide)

/-- Helper: appending the same string on the right is cancellable. -/
theorem string_append_right_cancel {a b c : String} (h : a ++ c = b ++ c) :
    a = b := by
  apply String.ext
  have hd := congrArg String.data h
  simp only [String.data_append] at hd
  exact List.append_cancel_right hd

/-- Claim C10: the displayed `ID` uses the clock reading taken before
display and the persisted `unique_id` uses the independent reading taken
inside `save_to_mongodb`; for the same record they coincide exactly when
the two readings render to the same second-resolution timestamp. -/
theorem displayed_id_vs_persisted_id (topics : List TopicRecord)
    (nowDisplay nowSave : PyDateTime) (proxy_ip proxy_port : String)
    (i : Nat) (rows : List DisplayRow) (save : SaveResult)
    (h : scrapeAndSaveHandler (fun _ => false) topics nowDisplay nowSave
        proxy_ip proxy_port = .displayed rows save)
    (hr : i < rows.length) (hw : i < save.written.length) :
    (rows.get ⟨i, hr⟩).id = (save.written.get ⟨i, hw⟩).unique_id ↔
      strftimeCompact nowDisplay = strftimeCompact nowSave := by
  cases topics with
  | nil => simp [scrapeAndSaveHandler] at h
  | cons topic rest =>
    simp only [scrapeAndSaveHandler, HandlerOutcome.displayed.injEq] at h
    obtain ⟨hrows, hsave⟩ := h
    subst hrows hsave
    simp only [List.get_eq_getElem, displayLoop_eq, save_to_mongodb,
      insertLoop_no_failure, List.getElem_map, List.getElem_enumFrom,
      mkDisplayRow, mkDocument]
    constructor
    · intro he
      exact string_append_right_cancel (string_append_right_cancel he)
    · intro he
      rw [he]

/-- Witness for C10: one record, the save-side clock one second later than
the display-side clock. -/
theorem displayed_id_vs_persisted_id_witness :
    ((displayLoop ⟨2024, 1, 2, 3, 4, 5⟩ "10.0.0.1" "8080" 1
        (([⟨some "A"⟩] : List TopicRecord).take 5)).get ⟨0, by decide⟩).id =
      ((save_to_mongodb (fun _ => false) (([⟨some "A"⟩] : List TopicRecord).take 5)
          "N/A" "10.0.0.1" "8080" ⟨2024, 1, 2, 3, 4, 6⟩).written.get
        ⟨0, by decide⟩).unique_id ↔
      strftimeCompact ⟨2024, 1, 2, 3, 4, 5⟩ = strftimeCompact ⟨2024, 1, 2, 3, 4, 6⟩ :=
  displayed_id_vs_persisted_id [⟨some "A"⟩] ⟨2024, 1, 2, 3, 4, 5⟩
    ⟨2024, 1, 2, 3, 4, 6⟩ "10.0.0.1" "8080" 0 _ _ rfl (by decide) (by decide)
